import Mathlib

/-!
Verification of the prompt element type registry and prompt-element data model
of the cmd-prompt-generator repository (`src/lib/enum/promptElementType.ts` and
the `PromptElement` instance model).

Strings are embedded as `List Char` where character-level reasoning is needed,
and as `String` in the catalog data.  The ambient clock read by the date/time
preview generators (`new Date()` in the source) and the injected `d3-time-format`
formatting capability are made explicit parameters: a generator field has type
`Args → Clock → String`, where a pure generator ignores the clock argument.
-/

set_option autoImplicit false

/-- Characters the JavaScript regex metacharacter `.` does NOT match
(line terminators: LF, CR, LS, PS). -/
def isLineTerminator (c : Char) : Bool :=
  c = '\n' ∨ c = '\r' ∨ c = Char.ofNat 0x2028 ∨ c = Char.ofNat 0x2029

/-- One iteration of the loop body of `RemoveBackspaces`:
`str.replace(/.?\x08/, '')` — remove the leftmost match of the regex `.?\x08`,
where at each start position the optional `.` is tried greedily first and `.`
does not match line terminators.  If nothing matches, the string is returned
unchanged (JavaScript `String.replace` semantics). -/
def removeFirstBsMatch : List Char → List Char
  | [] => []
  | [c] => if c = '\x08' then [] else [c]
  | c :: d :: rest =>
    if ¬ isLineTerminator c ∧ d = '\x08' then rest
    else if c = '\x08' then d :: rest
    else c :: removeFirstBsMatch (d :: rest)

theorem removeFirstBsMatch_length_lt {s : List Char} (h : '\x08' ∈ s) :
    (removeFirstBsMatch s).length < s.length := by
  induction s with
  | nil => cases h
  | cons c rest ih =>
    match rest, ih with
    | [], _ =>
      have hc : c = '\x08' := (List.mem_singleton.mp h).symm
      simp [removeFirstBsMatch, hc]
    | d :: rest', ih =>
      by_cases h1 : ¬ isLineTerminator c ∧ d = '\x08'
      · simp only [removeFirstBsMatch, if_pos h1, List.length_cons]
        omega
      · by_cases h2 : c = '\x08'
        · simp only [removeFirstBsMatch, if_neg h1, if_pos h2, List.length_cons]
          omega
        · have hmem : '\x08' ∈ d :: rest' := by
            rcases List.mem_cons.mp h with h' | h'
            · exact absurd h'.symm h2
            · exact h'
          have hlen := ih hmem
          simp only [List.length_cons] at hlen
          simp only [removeFirstBsMatch, if_neg h1, if_neg h2, List.length_cons]
          omega

/-- The function `RemoveBackspaces` from `promptElementType.ts`:
`while (str.indexOf('\b') !== -1) { str = str.replace(/.?\x08/, ''); }`. -/
def RemoveBackspaces (s : List Char) : List Char :=
  if h : '\x08' ∈ s then RemoveBackspaces (removeFirstBsMatch s) else s
termination_by s.length
decreasing_by exact removeFirstBsMatch_length_lt h

/-- String-typed wrapper of `RemoveBackspaces`, used by the catalog. -/
def RemoveBackspacesStr (s : String) : String :=
  String.mk (RemoveBackspaces s.data)

theorem RemoveBackspaces_eq (s : List Char) :
    RemoveBackspaces s =
      if '\x08' ∈ s then RemoveBackspaces (removeFirstBsMatch s) else s := by
  rw [RemoveBackspaces]
  split <;> simp_all

theorem RemoveBackspaces_of_not_mem {s : List Char} (h : '\x08' ∉ s) :
    RemoveBackspaces s = s := by
  rw [RemoveBackspaces_eq, if_neg h]

theorem not_mem_RemoveBackspaces (s : List Char) : '\x08' ∉ RemoveBackspaces s := by
  have H : ∀ n (s : List Char), s.length ≤ n → '\x08' ∉ RemoveBackspaces s := by
    intro n
    induction n with
    | zero =>
      intro s hs
      have hnil : s = [] := List.eq_nil_of_length_eq_zero (Nat.le_zero.mp hs)
      subst hnil
      rw [RemoveBackspaces_eq]
      simp
    | succ n ih =>
      intro s hs
      rw [RemoveBackspaces_eq]
      by_cases h : '\x08' ∈ s
      · rw [if_pos h]
        refine ih _ ?_
        have := removeFirstBsMatch_length_lt h
        omega
      · rwa [if_neg h]
  exact H s.length s le_rfl

theorem RemoveBackspaces_idem (s : List Char) :
    RemoveBackspaces (RemoveBackspaces s) = RemoveBackspaces s :=
  RemoveBackspaces_of_not_mem (not_mem_RemoveBackspaces s)

/-- Modelled from the spec: position and length of the first occurrence of the
pattern "a dot-matched single character (or none) immediately followed by one
backspace control character", where the set of characters the dot matches is a
parameter.  At each start position the single-character alternative is
preferred (the dot is greedy). -/
def firstMatchPos (dot : Char → Bool) : List Char → Option (Nat × Nat)
  | [] => none
  | c :: rest =>
    if dot c ∧ rest.head? = some '\x08' then some (0, 2)
    else if c = '\x08' then some (0, 1)
    else
      match firstMatchPos dot rest with
      | some (i, n) => some (i + 1, n)
      | none => none

/-- Modelled from the spec: "find the first occurrence of the pattern ... and
delete that matched span"; when there is no occurrence the string is unchanged. -/
def specDeleteFirstSpan (dot : Char → Bool) (s : List Char) : List Char :=
  match firstMatchPos dot s with
  | some (i, n) => s.take i ++ s.drop (i + n)
  | none => s

theorem firstMatchPos_bounds (dot : Char → Bool) {s : List Char}
    (h : '\x08' ∈ s) :
    ∃ i n, firstMatchPos dot s = some (i, n) ∧ 1 ≤ n ∧ i + n ≤ s.length := by
  induction s with
  | nil => cases h
  | cons c rest ih =>
    by_cases h1 : dot c ∧ rest.head? = some '\x08'
    · refine ⟨0, 2, by simp [firstMatchPos, h1], by omega, ?_⟩
      rcases rest with _ | ⟨d, rest'⟩
      · simp at h1
      · simp
    · by_cases h2 : c = '\x08'
      · refine ⟨0, 1, ?_, by omega, by simp⟩
        subst h2
        simp only [firstMatchPos, if_neg h1]
        simp
      · have hmem : '\x08' ∈ rest := by
          rcases List.mem_cons.mp h with h' | h'
          · exact absurd h'.symm h2
          · exact h'
        obtain ⟨i, n, heq, hn, hb⟩ := ih hmem
        refine ⟨i + 1, n, ?_, hn, ?_⟩
        · simp [firstMatchPos, h1, h2, heq]
        · simp
          omega

theorem specDeleteFirstSpan_length_lt (dot : Char → Bool) {s : List Char}
    (h : '\x08' ∈ s) :
    (specDeleteFirstSpan dot s).length < s.length := by
  obtain ⟨i, n, heq, hn, hb⟩ := firstMatchPos_bounds dot h
  simp only [specDeleteFirstSpan, heq, List.length_append, List.length_take,
    List.length_drop]
  omega

/-- Modelled from the spec: "repeatedly find the first occurrence of the
pattern ... and delete that matched span, until no backspace control character
remains", parametrized by the set of characters the single-character dot
matches. -/
def stripBackspacesSpec (dot : Char → Bool) (s : List Char) : List Char :=
  if h : '\x08' ∈ s then stripBackspacesSpec dot (specDeleteFirstSpan dot s) else s
termination_by s.length
decreasing_by exact specDeleteFirstSpan_length_lt dot h

theorem stripBackspacesSpec_eq (dot : Char → Bool) (s : List Char) :
    stripBackspacesSpec dot s =
      if '\x08' ∈ s then stripBackspacesSpec dot (specDeleteFirstSpan dot s)
      else s := by
  rw [stripBackspacesSpec]
  split <;> simp_all

/-- JavaScript dot semantics: any single character except a line terminator. -/
def regexDot (c : Char) : Bool := ¬ isLineTerminator c

theorem firstMatchPos_cons_shift (dot : Char → Bool) (c : Char) (rest : List Char)
    (hdot : ¬ (dot c ∧ rest.head? = some '\x08')) (h2 : c ≠ '\x08') :
    firstMatchPos dot (c :: rest) =
      match firstMatchPos dot rest with
      | some (i, n) => some (i + 1, n)
      | none => none := by
  simp only [firstMatchPos]
  rw [if_neg hdot, if_neg h2]

theorem removeFirstBsMatch_eq_specDelete (s : List Char) :
    removeFirstBsMatch s = specDeleteFirstSpan regexDot s := by
  induction s with
  | nil => rfl
  | cons c rest ih =>
    rcases rest with _ | ⟨d, rest'⟩
    · by_cases h2 : c = '\x08'
      · simp [removeFirstBsMatch, specDeleteFirstSpan, firstMatchPos, h2, regexDot,
          isLineTerminator]
      · simp [removeFirstBsMatch, specDeleteFirstSpan, firstMatchPos, h2]
    · by_cases h1 : ¬ isLineTerminator c ∧ d = '\x08'
      · have hdot : regexDot c ∧ (d :: rest').head? = some '\x08' := by
          simp [regexDot, h1.1, h1.2]
        simp [removeFirstBsMatch, specDeleteFirstSpan, firstMatchPos, h1, hdot]
      · by_cases h2 : c = '\x08'
        · subst h2
          have hd : d ≠ '\x08' := by
            intro hdeq
            exact h1 ⟨by decide, hdeq⟩
          simp [removeFirstBsMatch, specDeleteFirstSpan, firstMatchPos, hd,
            isLineTerminator]
        · have hdot : ¬ (regexDot c ∧ (d :: rest').head? = some '\x08') := by
            simp only [regexDot, List.head?_cons]
            intro hcon
            exact h1 ⟨by simpa using hcon.1, by simpa using hcon.2⟩
          have hstep :
              specDeleteFirstSpan regexDot (c :: d :: rest')
                = c :: specDeleteFirstSpan regexDot (d :: rest') := by
            rcases hfm : firstMatchPos regexDot (d :: rest') with _ | ⟨i, n⟩
            · simp [specDeleteFirstSpan, firstMatchPos_cons_shift _ _ _ hdot h2, hfm]
            · have harith : i + 1 + n = (i + n) + 1 := by omega
              simp [specDeleteFirstSpan, firstMatchPos_cons_shift _ _ _ hdot h2, hfm,
                harith, List.take_succ_cons, List.drop_succ_cons]
          rw [hstep]
          simp only [removeFirstBsMatch, if_neg h1, if_neg h2]
          rw [ih]

theorem RemoveBackspaces_eq_stripBackspacesSpec (s : List Char) :
    RemoveBackspaces s = stripBackspacesSpec regexDot s := by
  have H : ∀ n (s : List Char), s.length ≤ n →
      RemoveBackspaces s = stripBackspacesSpec regexDot s := by
    intro n
    induction n with
    | zero =>
      intro s hs
      have hnil : s = [] := List.eq_nil_of_length_eq_zero (Nat.le_zero.mp hs)
      subst hnil
      rw [RemoveBackspaces_eq, stripBackspacesSpec_eq]
      simp
    | succ n ih =>
      intro s hs
      rw [RemoveBackspaces_eq, stripBackspacesSpec_eq]
      by_cases h : '\x08' ∈ s
      · rw [if_pos h, if_pos h, removeFirstBsMatch_eq_specDelete]
        refine ih _ ?_
        have := specDeleteFirstSpan_length_lt regexDot h
        omega
      · rw [if_neg h, if_neg h]
  exact H s.length s le_rfl

/-! ## The element type catalog -/

/-- Parameter-value mapping (`Record<string, string>` in the source): a key is
either bound to a string or absent. -/
abbrev Args : Type := String → Option String

/-- Reading `args.key ?? ''`: an absent key is read as the empty string. -/
def argsGet (args : Args) (k : String) : String := (args k).getD ""

/-- The empty mapping `{}`. -/
def emptyArgs : Args := fun _ => none

/-- The mapping binding exactly one key. -/
def singleArg (k v : String) : Args := fun k' => if k' = k then some v else none

/-- Updating one binding of a mapping. -/
def argsSet (args : Args) (k v : String) : Args :=
  fun k' => if k' = k then some v else args k'

/-- The instant at which a generator is evaluated (`new Date()` in the source),
made an explicit argument of the embedding. -/
abbrev Clock : Type := Nat

/-- The injected `d3-time-format` capability: `timeFormat(fmt)(date)`. -/
abbrev TimeFormatter : Type := String → Clock → String

/-- A parameter of a prompt element type (`Parameter` in the source). -/
structure Parameter where
  id : String
  label : String
deriving DecidableEq

/-- One element-type descriptor (`class PromptElementType` in the source).
Generator fields take the parameter mapping and the evaluation instant; a
generator that does not read the clock in the source ignores the `Clock`
argument here. -/
structure PromptElementType where
  name : String
  char : Args → Clock → String
  parameters : List Parameter
  printable : Bool
  description : String
  preview : Args → Clock → String

/-- The constructor's shorthand: a constant string becomes the constant
generator `() => s`. -/
def constStr (s : String) : Args → Clock → String := fun _ _ => s

/-- Escaping used by the 'Text' descriptor:
`(args.text ?? '').replace(/([$`\\!])/g, '\\$1')` — a backslash is prepended
to every occurrence of one of the four characters of the regex class. -/
def isSpecialChar (c : Char) : Bool := c ∈ "$`\\!".data

def escapeTextChars : List Char → List Char
  | [] => []
  | c :: rest =>
    if isSpecialChar c then '\\' :: c :: escapeTextChars rest
    else c :: escapeTextChars rest

def currentDateElem (tf : TimeFormatter) : PromptElementType :=
  ⟨"Current Date", constStr "$d", [], true,
    "The date, in your local format (as displayed in taskbar).",
    fun _ now => tf "%x" now⟩

def timeCsElem (tf : TimeFormatter) : PromptElementType :=
  ⟨"Time with 100th-seconds", constStr "$t", [], true,
    "The time, in 24-hour format HH:MM:SS.ss with 100-th second precision (`echo %time%`).",
    fun _ now => RemoveBackspacesStr (tf "%_H:%M:%S.%L" now ++ "\x08")⟩

def timeElem (tf : TimeFormatter) : PromptElementType :=
  ⟨"Time", constStr "$t$h$h$h", [], true, "The time, in 24-hour HH:MM:SS format.",
    fun _ now => tf "%_H:%M:%S" now⟩

def timeNoSecElem (tf : TimeFormatter) : PromptElementType :=
  ⟨"Time (w/o seconds)", constStr "$t$h$h$h$h$h$h", [], true,
    "The time, in 24-hour HH:MM format.",
    fun _ now => tf "%_H:%M" now⟩

def usernameElem : PromptElementType :=
  ⟨"Username", constStr "%username%", [], true, "The username of the current user.",
    constStr "username"⟩

def hostnameElem : PromptElementType :=
  ⟨"Hostname", constStr "%computername%", [], true, "The hostname.",
    constStr "host-pc-name"⟩

def remoteDriveElem : PromptElementType :=
  ⟨"Remote Drive Name", constStr "$m", [], true,
    "Remote name associated with the current drive letter or empty string if current drive is not a network drive.",
    constStr "remote-drive-name"⟩

def drivePathElem : PromptElementType :=
  ⟨"Current Drive and Path", constStr "$p", [], true, "The current drive and path.",
    constStr "X:\\Big Folder\\current_folder"⟩

def driveElem : PromptElementType :=
  ⟨"Current Drive", constStr "$n", [], true, "The current drive letter.",
    constStr "X"⟩

def newlineElem : PromptElementType :=
  ⟨"Newline", constStr "$_", [], false, "A newline.", constStr "\n"⟩

def errorLevelElem : PromptElementType :=
  ⟨"Error Level", constStr "%errorlevel%", [], true,
    "Error level of the last run command.", constStr "0"⟩

def windowsVersionElem : PromptElementType :=
  ⟨"Windows Version", constStr "$v", [], true, "Windows version number with build.",
    constStr "Microsoft Windows [Version 10.0.19045.3208]"⟩

def envVarElem : PromptElementType :=
  ⟨"Environment Variable", fun args _ => "%" ++ argsGet args "command" ++ "%",
    [⟨"envvar", "Env Var Name"⟩], true, "A custom environment variable.",
    constStr "example output"⟩

def spaceElem : PromptElementType :=
  ⟨"⎵", constStr "$s", [], false, "Space.", constStr " "⟩

def tildeElem : PromptElementType :=
  ⟨"~", constStr "~", [], true, "Tilde.", constStr "~"⟩

def exclamationElem : PromptElementType :=
  ⟨"!", constStr "!", [], true, "Exclamation mark.", constStr "!"⟩

def questionElem : PromptElementType :=
  ⟨"?", constStr "?", [], true, "Question mark.", constStr "?"⟩

def ampersatElem : PromptElementType :=
  ⟨"@", constStr "@", [], true, "Ampersat.", constStr "@"⟩

def hashElem : PromptElementType :=
  ⟨"#", constStr "#", [], true, "Hash.", constStr "#"⟩

def dollarElem : PromptElementType :=
  ⟨"$", constStr "$$", [], true, "Dollar sign.", constStr "$"⟩

def percentElem : PromptElementType :=
  ⟨"%", constStr "%", [], true, "Percent.", constStr "%"⟩

def caretElem : PromptElementType :=
  ⟨"^", constStr "^", [], true, "Caret.", constStr "^"⟩

def ampersandElem : PromptElementType :=
  ⟨"&", constStr "$a", [], true, "Ampersand.", constStr "&"⟩

def asteriskElem : PromptElementType :=
  ⟨"*", constStr "*", [], true, "Asterisk.", constStr "*"⟩

def openParenElem : PromptElementType :=
  ⟨"(", constStr "$c", [], true, "Open parenthesis.", constStr "("⟩

def closeParenElem : PromptElementType :=
  ⟨")", constStr "$f", [], true, "Close parenthesis.", constStr ")"⟩

def openCurlyElem : PromptElementType :=
  ⟨"\x7b", constStr "\x7b", [], true, "Open curly bracket.", constStr "\x7b"⟩

def closeCurlyElem : PromptElementType :=
  ⟨"\x7d", constStr "\x7d", [], true, "Close curly bracket.", constStr "\x7d"⟩

def openBracketElem : PromptElementType :=
  ⟨"[", constStr "[", [], true, "Open bracket.", constStr "["⟩

def closeBracketElem : PromptElementType :=
  ⟨"]", constStr "]", [], true, "Close bracket.", constStr "]"⟩

def hyphenElem : PromptElementType :=
  ⟨"-", constStr "-", [], true, "Hyphen.", constStr "-"⟩

def underscoreElem : PromptElementType :=
  ⟨"_", constStr "_", [], true, "Underscore.", constStr "_"⟩

def plusElem : PromptElementType :=
  ⟨"+", constStr "+", [], true, "Plus.", constStr "+"⟩

def equalElem : PromptElementType :=
  ⟨"=", constStr "$q", [], true, "Equal.", constStr "="⟩

def forwardSlashElem : PromptElementType :=
  ⟨"/", constStr "/", [], true, "Forward slash.", constStr "/"⟩

def backslashElem : PromptElementType :=
  ⟨"\\", constStr "\\\\", [], true, "Backslash.", constStr "\\"⟩

def pipeElem : PromptElementType :=
  ⟨"|", constStr "$b", [], true, "Pipe.", constStr "|"⟩

def commaElem : PromptElementType :=
  ⟨",", constStr ",", [], true, "Comma.", constStr ","⟩

def periodElem : PromptElementType :=
  ⟨".", constStr ".", [], true, "Period.", constStr "."⟩

def colonElem : PromptElementType :=
  ⟨":", constStr ":", [], true, "Colon.", constStr ":"⟩

def semicolonElem : PromptElementType :=
  ⟨";", constStr ";", [], true, "Semicolon.", constStr ";"⟩

def quotationElem : PromptElementType :=
  ⟨"\"", constStr "\"", [], true, "Quotation mark.", constStr "\""⟩

def backspaceElem : PromptElementType :=
  ⟨"⌫", constStr "$h", [], false, "Backspace.", constStr "\x08"⟩

/-- The apostrophe character as a one-character string. -/
def squote : String := (Char.ofNat 39).toString

def singleQuoteElem : PromptElementType :=
  ⟨squote, constStr squote, [], true, "Single quote.", constStr squote⟩

def lessThanElem : PromptElementType :=
  ⟨"<", constStr "$l", [], true, "Less than.", constStr "<"⟩

def greaterThanElem : PromptElementType :=
  ⟨">", constStr "$g", [], true, "Greater than.", constStr ">"⟩

def textElem : PromptElementType :=
  ⟨"Text",
    fun args _ => String.mk (escapeTextChars (argsGet args "text").data),
    [⟨"text", "Text"⟩], true, "A custom text.",
    fun args _ => argsGet args "text"⟩

/-- The catalog `PROMPT_ELEMENT_TYPES`, in source order (commented-out entries
of the source are omitted, as in the source). -/
def PROMPT_ELEMENT_TYPES (tf : TimeFormatter) : List PromptElementType :=
  [currentDateElem tf, timeCsElem tf, timeElem tf, timeNoSecElem tf,
   usernameElem, hostnameElem, remoteDriveElem, drivePathElem, driveElem,
   newlineElem, errorLevelElem, windowsVersionElem, envVarElem, spaceElem,
   tildeElem, exclamationElem, questionElem, ampersatElem, hashElem, dollarElem,
   percentElem, caretElem, ampersandElem, asteriskElem, openParenElem,
   closeParenElem, openCurlyElem, closeCurlyElem, openBracketElem,
   closeBracketElem, hyphenElem, underscoreElem, plusElem, equalElem,
   forwardSlashElem, backslashElem, pipeElem, commaElem, periodElem, colonElem,
   semicolonElem, quotationElem, backspaceElem, singleQuoteElem, lessThanElem,
   greaterThanElem, textElem]

/-! ## The prompt element instance model -/

/-- The seven display attributes (`displayAttribute` enumeration, from the
spec's list of the seven fixed attribute names). -/
inductive displayAttribute where
  | bold | dim | italic | underline | blink | reverse | overline
deriving DecidableEq

/-- A prompt element instance (`class PromptElement` in the source), generic in
the external `Color` enumeration, which is opaque to this core. -/
structure PromptElement (Color : Type) where
  type : PromptElementType
  parameters : Args
  attributes : displayAttribute → Bool
  backspaces : Nat
  foregroundColor : Option Color
  backgroundColor : Option Color

/-- The `PromptElement` constructor: no parameters, no styling. -/
def PromptElement.create (Color : Type) (t : PromptElementType) :
    PromptElement Color where
  type := t
  parameters := fun _ => none
  attributes := fun a =>
    match a with
    | .bold => false
    | .dim => false
    | .italic => false
    | .underline => false
    | .blink => false
    | .reverse => false
    | .overline => false
  backspaces := 0
  foregroundColor := none
  backgroundColor := none

/-! ## Helper lemmas -/

theorem escapeTextChars_eq_join (cs : List Char) :
    escapeTextChars cs =
      (cs.map fun c => if isSpecialChar c then ['\\', c] else [c]).flatten := by
  induction cs with
  | nil => rfl
  | cons c rest ih =>
    by_cases hc : isSpecialChar c
    · simp [escapeTextChars, hc, ih]
    · simp [escapeTextChars, hc, ih]

/-! ## The claims -/

/-- C1 counterexample: with the dot reading "any single character" (including a
newline), the spec's repeated deletion procedure erases the span in front of a
backspace even across a newline, but the code's regex dot does not match a line
terminator: on the input consisting of a newline followed by a backspace the
code returns the newline while the claimed procedure returns the empty string. -/
theorem removeBackspaces_deviates_from_anyChar_deletion :
    RemoveBackspaces ['\n', '\x08'] = ['\n'] ∧
    stripBackspacesSpec (fun _ => true) ['\n', '\x08'] = [] ∧
    RemoveBackspaces ['\n', '\x08'] ≠
      stripBackspacesSpec (fun _ => true) ['\n', '\x08'] := by
  have h1 : RemoveBackspaces ['\n', '\x08'] = ['\n'] := by
    simp [RemoveBackspaces_eq, removeFirstBsMatch, isLineTerminator]
  have h2 : stripBackspacesSpec (fun _ => true) ['\n', '\x08'] = [] := by
    simp [stripBackspacesSpec_eq, specDeleteFirstSpan, firstMatchPos]
  refine ⟨h1, h2, ?_⟩
  rw [h1, h2]
  simp

/-- C1 (amended): `RemoveBackspaces` equals the procedure that repeatedly finds
the first occurrence of the span "any single character other than a line
terminator (or none) immediately followed by one backspace control character"
and deletes that matched span until no backspace remains; a backspace whose
preceding character cannot be consumed is removed consuming only itself; and
the three quoted examples hold. -/
theorem removeBackspaces_matches_dot_deletion_spec :
    (∀ s : List Char, RemoveBackspaces s = stripBackspacesSpec regexDot s) ∧
    RemoveBackspaces ['\x08'] = [] ∧
    RemoveBackspaces ['a', 'b', '\x08', 'c'] = ['a', 'c'] ∧
    RemoveBackspaces ['a', '\x08', '\x08'] = [] := by
  refine ⟨RemoveBackspaces_eq_stripBackspacesSpec, ?_, ?_, ?_⟩ <;>
    simp [RemoveBackspaces_eq, removeFirstBsMatch, isLineTerminator]

/-- C2: for the 'Text' descriptor and every mapping binding "text" to `v`, the
char generator prepends a backslash to every occurrence of the four characters
of the class `[$`\!]` and leaves every other character unchanged, while the
preview generator returns the raw `v`; in particular for `v = "$HOME"` the char
output is `"\$HOME"` and the preview output is `"$HOME"`. -/
theorem textElem_char_escapes_preview_raw :
    (∀ (t : Clock) (args : Args) (v : String), args "text" = some v →
      textElem.char args t =
        String.mk ((v.data.map fun c =>
          if isSpecialChar c then ['\\', c] else [c]).flatten) ∧
      textElem.preview args t = v) ∧
    textElem.char (singleArg "text" "$HOME") 0 = "\\$HOME" ∧
    textElem.preview (singleArg "text" "$HOME") 0 = "$HOME" := by
  refine ⟨?_, by decide, by decide⟩
  intro t args v hv
  constructor
  · show String.mk (escapeTextChars (argsGet args "text").data) = _
    simp only [argsGet, hv, Option.getD_some]
    rw [escapeTextChars_eq_join]
  · show argsGet args "text" = v
    simp only [argsGet, hv, Option.getD_some]

theorem textElem_char_escapes_preview_raw_witness :
    singleArg "text" "a!" "text" = some "a!" ∧
    textElem.char (singleArg "text" "a!") 0 =
      String.mk ((("a!" : String).data.map fun c =>
        if isSpecialChar c then ['\\', c] else [c]).flatten) ∧
    textElem.preview (singleArg "text" "a!") 0 = "a!" := by
  have h : singleArg "text" "a!" "text" = some "a!" := by decide
  exact ⟨h, (textElem_char_escapes_preview_raw.1 0 _ "a!" h).1,
    (textElem_char_escapes_preview_raw.1 0 _ "a!" h).2⟩

/-- C3: the output of `RemoveBackspaces` contains zero occurrences of the
backspace control character, and `RemoveBackspaces` is idempotent. -/
theorem removeBackspaces_output_clean_and_idempotent :
    ∀ s : List Char,
      (RemoveBackspaces s).count '\x08' = 0 ∧
      RemoveBackspaces (RemoveBackspaces s) = RemoveBackspaces s := by
  intro s
  exact ⟨List.count_eq_zero.mpr (not_mem_RemoveBackspaces s),
    RemoveBackspaces_idem s⟩

/-- C4: each iteration of the loop of `RemoveBackspaces` strictly shortens the
string (and the loop unfolds through that iteration), and on a string
containing no backspace the function performs no iteration and returns its
input unchanged. -/
theorem removeBackspaces_shortens_and_noop_on_clean :
    ∀ s : List Char,
      ('\x08' ∈ s → (removeFirstBsMatch s).length < s.length ∧
        RemoveBackspaces s = RemoveBackspaces (removeFirstBsMatch s)) ∧
      ('\x08' ∉ s → RemoveBackspaces s = s) := by
  intro s
  refine ⟨fun h => ⟨removeFirstBsMatch_length_lt h, ?_⟩,
    fun h => RemoveBackspaces_of_not_mem h⟩
  rw [RemoveBackspaces_eq, if_pos h]

theorem removeBackspaces_shortens_and_noop_on_clean_witness :
    (removeFirstBsMatch ['a', '\x08']).length < (['a', '\x08'] : List Char).length ∧
    RemoveBackspaces ['a', 'b'] = ['a', 'b'] :=
  ⟨((removeBackspaces_shortens_and_noop_on_clean ['a', '\x08']).1 (by decide)).1,
   (removeBackspaces_shortens_and_noop_on_clean ['a', 'b']).2 (by decide)⟩

/-- A clock-distinguishing instantiation of the injected formatting capability:
its output differs between two evaluation instants, as a date/time formatter's
does between two dates. -/
def clockSensitiveTf : TimeFormatter := fun _ t => if t = 0 then "A" else "B"

/-- C5 counterexample: the 'Current Date' descriptor's preview generator reads
the evaluation-time clock (`new Date()` in the source) through the injected
formatter, so two evaluations of `preview` on the same (empty) parameter
mapping at different instants return different strings. -/
theorem datetime_preview_depends_on_clock :
    currentDateElem clockSensitiveTf ∈ PROMPT_ELEMENT_TYPES clockSensitiveTf ∧
    (currentDateElem clockSensitiveTf).preview emptyArgs 0 ≠
      (currentDateElem clockSensitiveTf).preview emptyArgs 1 := by
  refine ⟨by simp [PROMPT_ELEMENT_TYPES], ?_⟩
  decide

/-- C5 (amended): for every descriptor in the catalog the char generator is
pure (two evaluations at any two instants agree for every mapping), and the
preview generator is pure for every descriptor except the four date/time
descriptors ('Current Date', 'Time with 100th-seconds', 'Time',
'Time (w/o seconds)'), whose previews read the evaluation-time clock. -/
theorem generators_pure_except_datetime_previews :
    ∀ (tf : TimeFormatter) (d : PromptElementType),
      d ∈ PROMPT_ELEMENT_TYPES tf →
      (∀ (m : Args) (t t' : Clock), d.char m t = d.char m t') ∧
      (d.name ∉ (["Current Date", "Time with 100th-seconds", "Time",
          "Time (w/o seconds)"] : List String) →
        ∀ (m : Args) (t t' : Clock), d.preview m t = d.preview m t') := by
  intro tf d hd
  simp only [PROMPT_ELEMENT_TYPES, List.mem_cons, List.not_mem_nil, or_false] at hd
  rcases hd with rfl | rfl | rfl | rfl | hd
  · exact ⟨fun m t t' => rfl, fun h => absurd (by simp [currentDateElem]) h⟩
  · exact ⟨fun m t t' => rfl, fun h => absurd (by simp [timeCsElem]) h⟩
  · exact ⟨fun m t t' => rfl, fun h => absurd (by simp [timeElem]) h⟩
  · exact ⟨fun m t t' => rfl, fun h => absurd (by simp [timeNoSecElem]) h⟩
  · rcases hd with rfl|rfl|rfl|rfl|rfl|rfl|rfl|rfl|rfl|rfl|rfl|rfl|rfl|rfl|rfl|rfl|rfl|rfl|rfl|rfl|rfl|rfl|rfl|rfl|rfl|rfl|rfl|rfl|rfl|rfl|rfl|rfl|rfl|rfl|rfl|rfl|rfl|rfl|rfl|rfl|rfl|rfl|rfl <;>
      exact ⟨fun m t t' => rfl, fun h m t t' => rfl⟩

theorem generators_pure_except_datetime_previews_witness :
    usernameElem.preview emptyArgs 0 = usernameElem.preview emptyArgs 1 :=
  (generators_pure_except_datetime_previews (fun _ _ => "") usernameElem
    (by simp [PROMPT_ELEMENT_TYPES])).2 (by decide) emptyArgs 0 1

/-- C6: the 'Environment Variable' descriptor's char generator returns
`"%" ++ v ++ "%"` where `v` is the value bound to the key "command" (empty when
absent); its output does not depend on the value bound to "envvar", the
descriptor's only declared parameter id, and on a mapping binding only
"envvar" it returns `"%%"`. -/
theorem envVarElem_char_reads_command_key :
    ∀ (t : Clock) (args : Args) (v : String),
      envVarElem.char args t = "%" ++ argsGet args "command" ++ "%" ∧
      envVarElem.parameters = [⟨"envvar", "Env Var Name"⟩] ∧
      envVarElem.char (argsSet args "envvar" v) t = envVarElem.char args t ∧
      envVarElem.char (singleArg "envvar" v) t = "%%" := by
  intro t args v
  refine ⟨rfl, rfl, ?_, ?_⟩
  · show "%" ++ argsGet (argsSet args "envvar" v) "command" ++ "%" = _
    simp [argsGet, argsSet, envVarElem]
  · show "%" ++ argsGet (singleArg "envvar" v) "command" ++ "%" = "%%"
    simp [argsGet, singleArg]

/-- C7: every generator in the catalog is a total function of the parameter
mapping that reads absent keys as the empty string: its value at any mapping
equals its value at the mapping binding every key to that defaulted reading,
and in particular its value at the empty mapping equals its value at the
all-empty-string mapping. -/
theorem generators_total_absent_eq_empty :
    ∀ (tf : TimeFormatter) (d : PromptElementType),
      d ∈ PROMPT_ELEMENT_TYPES tf →
      ∀ (t : Clock) (m : Args),
        d.char m t = d.char (fun k => some (argsGet m k)) t ∧
        d.preview m t = d.preview (fun k => some (argsGet m k)) t ∧
        d.char emptyArgs t = d.char (fun _ => some "") t ∧
        d.preview emptyArgs t = d.preview (fun _ => some "") t := by
  intro tf d hd t m
  simp only [PROMPT_ELEMENT_TYPES, List.mem_cons, List.not_mem_nil, or_false] at hd
  rcases hd with rfl|rfl|rfl|rfl|rfl|rfl|rfl|rfl|rfl|rfl|rfl|rfl|rfl|rfl|rfl|rfl|rfl|rfl|rfl|rfl|rfl|rfl|rfl|rfl|rfl|rfl|rfl|rfl|rfl|rfl|rfl|rfl|rfl|rfl|rfl|rfl|rfl|rfl|rfl|rfl|rfl|rfl|rfl|rfl|rfl|rfl|rfl <;>
    exact ⟨rfl, rfl, rfl, rfl⟩

theorem generators_total_absent_eq_empty_witness :
    textElem.char emptyArgs 0 = textElem.char (fun _ => some "") 0 :=
  (generators_total_absent_eq_empty (fun _ _ => "") textElem
    (by simp [PROMPT_ELEMENT_TYPES]) 0 emptyArgs).2.2.1

/-- C8: a `PromptElement` freshly constructed from a descriptor has all seven
display attributes false, zero backspaces, both colors absent, an empty
parameter mapping, and its type reference equal to the descriptor; the
construction is a total function. -/
theorem promptElement_create_defaults :
    ∀ (Color : Type) (t : PromptElementType),
      (PromptElement.create Color t).type = t ∧
      (∀ a, (PromptElement.create Color t).attributes a = false) ∧
      (PromptElement.create Color t).backspaces = 0 ∧
      (PromptElement.create Color t).foregroundColor = none ∧
      (PromptElement.create Color t).backgroundColor = none ∧
      (∀ k, (PromptElement.create Color t).parameters k = none) := by
  intro Color t
  refine ⟨rfl, fun a => ?_, rfl, rfl, rfl, fun k => rfl⟩
  cases a <;> rfl

/-- C9: the names of the catalog's descriptors are pairwise distinct and
non-empty, and within each descriptor's parameter list the parameter ids are
pairwise distinct. -/
theorem catalog_names_and_param_ids_distinct :
    ∀ tf : TimeFormatter,
      ((PROMPT_ELEMENT_TYPES tf).map PromptElementType.name).Nodup ∧
      ∀ d ∈ PROMPT_ELEMENT_TYPES tf,
        d.name ≠ "" ∧ (d.parameters.map Parameter.id).Nodup := by
  intro tf
  constructor
  · simp only [PROMPT_ELEMENT_TYPES, List.map_cons, List.map_nil,
      currentDateElem, timeCsElem, timeElem, timeNoSecElem, usernameElem,
      hostnameElem, remoteDriveElem, drivePathElem, driveElem, newlineElem,
      errorLevelElem, windowsVersionElem, envVarElem, spaceElem, tildeElem,
      exclamationElem, questionElem, ampersatElem, hashElem, dollarElem,
      percentElem, caretElem, ampersandElem, asteriskElem, openParenElem,
      closeParenElem, openCurlyElem, closeCurlyElem, openBracketElem,
      closeBracketElem, hyphenElem, underscoreElem, plusElem, equalElem,
      forwardSlashElem, backslashElem, pipeElem, commaElem, periodElem,
      colonElem, semicolonElem, quotationElem, backspaceElem, singleQuoteElem,
      lessThanElem, greaterThanElem, textElem]
    decide
  · intro d hd
    simp only [PROMPT_ELEMENT_TYPES, List.mem_cons, List.not_mem_nil,
      or_false] at hd
    rcases hd with rfl|rfl|rfl|rfl|rfl|rfl|rfl|rfl|rfl|rfl|rfl|rfl|rfl|rfl|rfl|rfl|rfl|rfl|rfl|rfl|rfl|rfl|rfl|rfl|rfl|rfl|rfl|rfl|rfl|rfl|rfl|rfl|rfl|rfl|rfl|rfl|rfl|rfl|rfl|rfl|rfl|rfl|rfl|rfl|rfl|rfl|rfl <;>
      exact ⟨by first
          | decide
          | simp [currentDateElem, timeCsElem, timeElem, timeNoSecElem],
        by first
          | decide
          | simp [currentDateElem, timeCsElem, timeElem, timeNoSecElem]⟩

theorem catalog_names_and_param_ids_distinct_witness :
    envVarElem.name ≠ "" ∧ (envVarElem.parameters.map Parameter.id).Nodup :=
  (catalog_names_and_param_ids_distinct (fun _ _ => "")).2 envVarElem
    (by simp [PROMPT_ELEMENT_TYPES])

/-- C10: within the catalog the printable flag is false exactly for the three
pure whitespace/control descriptors — 'Newline', the space element and the
backspace element — and true for all remaining descriptors. -/
theorem printable_false_exactly_for_whitespace_control :
    ∀ tf : TimeFormatter,
      ((PROMPT_ELEMENT_TYPES tf).filter (fun d => ! d.printable)).map
          PromptElementType.name = ["Newline", "⎵", "⌫"] ∧
      (PROMPT_ELEMENT_TYPES tf).length = 47 := by
  intro tf
  exact ⟨rfl, rfl⟩
